import Mathlib

/-!
Verification of the ENS160 MicroPython driver (`ens160sciosense.py`).

The driver's algorithmic core is embedded shallowly:

* pure helpers (`_crc8`, `_to_raw_config`, `_to_config`, the compensation
  encoders) become Lean functions over `Nat` / `ℤ` / `ℚ`, with Python's
  unbounded-integer semantics made explicit (`& 0xFF` is `% 256`, `int()` on a
  nonnegative float is the floor);
* the I2C transactions of a method are modelled by an explicit response stream
  `resp : Nat → List Nat` (the bytes returned by the n-th read transaction),
  a read-transaction counter, and a trace of issued bus operations;
* Python exceptions become `Except` values carrying the same diagnostic data.
-/

namespace Ens160

/-- CRC polynomial constant of the driver (`Ens160._CRC_POLY`). -/
def CRC_POLY : Nat := 0x1D

/-- Loop body of `Ens160._crc8`: `tmp = 0xFF & ((crc << 1) ^ item)`, then the
new `crc` is `tmp` when `0 == crc & 0x80` and `tmp ^ polynomial` otherwise. -/
def crc8_step (polynomial : Nat) (crc : Nat) (item : Nat) : Nat :=
  let tmp := 0xFF &&& ((crc <<< 1) ^^^ item)
  if crc &&& 0x80 = 0 then tmp else tmp ^^^ polynomial

/-- Translation of `Ens160._crc8(sequence, polynomial, init_value)`.  `init_value` is a Python
int of arbitrary sign and magnitude; `init_value & 0xFF` is its nonnegative
residue mod 256, hence `(init_value % 256).toNat`. -/
def crc8 (sequence : List Nat) (polynomial : Nat) (init_value : ℤ) : Nat :=
  sequence.foldl (crc8_step polynomial) ((init_value % 256).toNat)

/-- Reference CRC step written from the spec's words: `shifted =
((crc << 1) & 0xFF) XOR b`, and the new crc is `shifted` when the previous
crc's bit 7 was 0, otherwise `shifted XOR polynomial`. -/
def crc8_ref_step (polynomial : Nat) (crc : Nat) (b : Nat) : Nat :=
  let shifted := ((crc <<< 1) &&& 0xFF) ^^^ b
  if crc.testBit 7 = false then shifted else shifted ^^^ polynomial

/-- Reference byte-folding CRC8 from the spec: start at the seed and apply
`crc8_ref_step` for each input byte. -/
def crc8_ref (sequence : List Nat) (polynomial : Nat) (seed : Nat) : Nat :=
  sequence.foldl (crc8_ref_step polynomial) seed

/-- Standard bit-at-a-time CRC8 processing of one byte (MSB first, no
reflection): xor the byte into the crc, then shift eight times, xoring the
polynomial in whenever the top bit falls out set.  Written from the spec's
description of the algorithm the vendor variant differs from. -/
def crc8_std_byte (polynomial : Nat) (crc : Nat) (b : Nat) : Nat :=
  (List.range 8).foldl
    (fun c _ =>
      if c.testBit 7 then ((c <<< 1) &&& 0xFF) ^^^ polynomial
      else (c <<< 1) &&& 0xFF)
    (crc ^^^ b)

/-- Standard bit-at-a-time CRC8 over a byte sequence. -/
def crc8_std (sequence : List Nat) (polynomial : Nat) (seed : Nat) : Nat :=
  sequence.foldl (crc8_std_byte polynomial) seed

end Ens160

deriving instance DecidableEq for Except

/-- A bus operation issued by the driver: a register read transaction
(`read_reg(addr, cnt)`) or a register write (`write_reg(addr, value, cnt)`). -/
inductive BusOp where
  | readOp (addr : Nat) (cnt : Nat)
  | writeOp (addr : Nat) (value : ℤ) (cnt : Nat)
deriving DecidableEq, Repr

/-- Python exceptions the driver raises.  `crcError` is the
`IOError("Input data broken! Bad CRC! ...")` of `_read_register`, carrying the
host-computed crc and the chip-reported crc shown in its message; `valueError`
is the validation failure of `check_value`, carrying the offending value and
the allowed set named in its message. -/
inductive DriverError where
  | crcError (computed : Nat) (reported : Nat)
  | valueError (value : ℤ) (allowed : List ℤ)
deriving DecidableEq, Repr

/-- First byte of a response (`b[0]`); bus reads of `n` bytes return `n`
bytes, so the default is never consulted on a well-formed bus. -/
def byte0 (b : List Nat) : Nat := b.headD 0

/-- Byte `i` of a response (`b[i]`), with the same well-formed-bus caveat. -/
def byteAt (b : List Nat) (i : Nat) : Nat := b.getD i 0

namespace Ens160

/-- Translation of `Ens160._read_register(reg_addr, bytes_count)` against a response stream:
`resp n` is the byte list the n-th read transaction returns and `k` counts the
read transactions already performed.  Returns the trace of issued bus
operations, the next transaction counter, and the result.  With CRC checking
on, the checksum register 0x38 is read (`_get_last_checksum`) before the data
read, and, when `reg_addr < 0x38`, again after it; the read fails when the
crc computed over the data with the earlier checksum as seed differs from the
later checksum. -/
def read_register (check_crc : Bool) (resp : Nat → List Nat) (k : Nat)
    (reg_addr : Nat) (bytes_count : Nat) :
    List BusOp × Nat × Except DriverError (List Nat) :=
  if check_crc then
    let before := byte0 (resp k)
    let b := resp (k + 1)
    if reg_addr < 0x38 then
      let crc := crc8 b CRC_POLY (before : ℤ)
      let after := byte0 (resp (k + 2))
      if crc ≠ after then
        ([BusOp.readOp 0x38 1, BusOp.readOp reg_addr bytes_count,
          BusOp.readOp 0x38 1], k + 3,
         Except.error (DriverError.crcError crc after))
      else
        ([BusOp.readOp 0x38 1, BusOp.readOp reg_addr bytes_count,
          BusOp.readOp 0x38 1], k + 3, Except.ok b)
    else
      ([BusOp.readOp 0x38 1, BusOp.readOp reg_addr bytes_count], k + 2,
       Except.ok b)
  else
    ([BusOp.readOp reg_addr bytes_count], k + 1, Except.ok (resp k))

/-- Modelled from the spec: `check_value` is imported from
`sensor_pack_2.base_sensor`, which is not part of this repository snapshot.
Per the spec, invalid configuration values "are rejected synchronously before
any bus transaction is issued, with a validation error naming the offending
value and the allowed set"; a valid value passes through and is used. -/
def check_value (value : ℤ) (allowed : List ℤ) : Except DriverError ℤ :=
  if value ∈ allowed then Except.ok value
  else Except.error (DriverError.valueError value allowed)

/-- Translation of `Ens160._set_mode(new_mode)`: validate against `(0, 1, 2, 0xF0)`, then
write the mode to register 0x10.  Returns the issued bus operations and the
outcome. -/
def set_mode (new_mode : ℤ) : List BusOp × Except DriverError Unit :=
  match check_value new_mode [0, 1, 2, 0xF0] with
  | Except.error e => ([], Except.error e)
  | Except.ok nm => ([BusOp.writeOp 0x10 nm 1], Except.ok ())

/-- Translation of `Ens160._exec_cmd(cmd)`: validate against `(0x00, 0x0E, 0xCC)`, write the
command to register 0x12, then read 8 bytes from register 0x48 through
`_read_register`. -/
def exec_cmd (check_crc : Bool) (resp : Nat → List Nat) (k : Nat) (cmd : ℤ) :
    List BusOp × Nat × Except DriverError (List Nat) :=
  match check_value cmd [0x00, 0x0E, 0xCC] with
  | Except.error e => ([], k, Except.error e)
  | Except.ok _ =>
    let r := read_register check_crc resp k 0x48 8
    (BusOp.writeOp 0x12 cmd 1 :: r.1, r.2.1, r.2.2)

/-- The `ens160_config` namedtuple: five interrupt-configuration flags. -/
structure Config where
  int_pol : Bool
  int_cfg : Bool
  int_gpr : Bool
  int_dat : Bool
  int_en : Bool
deriving DecidableEq, Repr

/-- Python `int(b)` for a bool `b`. -/
def bit (b : Bool) : Nat := if b then 1 else 0

/-- Translation of `Ens160._to_raw_config(cfg)`: the sum of each flag, as 0 or 1, shifted to
bit positions `6, 5, 3, 1, 0` respectively. -/
def to_raw_config (cfg : Config) : Nat :=
  (bit cfg.int_pol <<< 6) + (bit cfg.int_cfg <<< 5) + (bit cfg.int_gpr <<< 3) +
    (bit cfg.int_dat <<< 1) + (bit cfg.int_en <<< 0)

/-- Translation of `Ens160._to_config(raw_cfg)`: each flag is `bool((1 << n) & raw_cfg)` for
`n` in `6, 5, 3, 1, 0`. -/
def to_config (raw_cfg : Nat) : Config :=
  { int_pol := ((1 <<< 6) &&& raw_cfg) ≠ 0
    int_cfg := ((1 <<< 5) &&& raw_cfg) ≠ 0
    int_gpr := ((1 <<< 3) &&& raw_cfg) ≠ 0
    int_dat := ((1 <<< 1) &&& raw_cfg) ≠ 0
    int_en := ((1 <<< 0) &&& raw_cfg) ≠ 0 }

/-- Python `int(q)` on a real value: truncation toward zero. -/
def pytrunc (q : ℚ) : ℤ := if 0 ≤ q then ⌊q⌋ else ⌈q⌉

/-- The raw value `t = int(64*(273.15+value_in_celsius))` that
`Ens160.set_ambient_temp` computes; Python float arithmetic is modelled by
exact rational arithmetic. -/
def ambient_temp_raw (value_in_celsius : ℚ) : ℤ :=
  pytrunc (64 * (273.15 + value_in_celsius))

/-- Translation of `Ens160.set_ambient_temp(value_in_celsius)`: the bus operations it issues,
a single two-byte write of `ambient_temp_raw` to register 0x13. -/
def set_ambient_temp (value_in_celsius : ℚ) : List BusOp :=
  [BusOp.writeOp 0x13 (ambient_temp_raw value_in_celsius) 2]

/-- Python `<<` on an arbitrary (possibly negative) int. -/
def pyshl (n : ℤ) (s : Nat) : ℤ := n * 2 ^ s

/-- The allowed set `range(101)` of `Ens160.set_humidity`, as integers. -/
def humidity_allowed : List ℤ := (List.range 101).map Nat.cast

/-- Translation of `Ens160.set_humidity(rel_hum)`: validate against `range(101)`, then write
`rel_hum << 9` to register 0x15 as two bytes. -/
def set_humidity (rel_hum : ℤ) : List BusOp × Except DriverError Unit :=
  match check_value rel_hum humidity_allowed with
  | Except.error e => ([], Except.error e)
  | Except.ok _ => ([BusOp.writeOp 0x15 (pyshl rel_hum 9) 2], Except.ok ())

/-- Modelled from the spec: `DeviceEx.unpack("H", ...)` comes from
`sensor_pack_2`, which is not part of this repository snapshot; the spec fixes
every multi-byte register of this chip as little-endian unsigned 16-bit, so
the decode is `b[0] + (b[1] << 8)`. -/
def unpack_u16 (b : List Nat) : Nat := byteAt b 0 + (byteAt b 1 <<< 8)

/-- Translation of `Ens160._get_eco2()`: read two bytes from register 0x24 and decode them as
a little-endian unsigned 16-bit value. -/
def get_eco2 (check_crc : Bool) (resp : Nat → List Nat) (k : Nat) :
    List BusOp × Nat × Except DriverError Nat :=
  let r := read_register check_crc resp k 0x24 2
  (r.1, r.2.1, r.2.2.map unpack_u16)

/-- Translation of `Ens160._get_tvoc()`: read two bytes from register 0x22 and decode them as
a little-endian unsigned 16-bit value. -/
def get_tvoc (check_crc : Bool) (resp : Nat → List Nat) (k : Nat) :
    List BusOp × Nat × Except DriverError Nat :=
  let r := read_register check_crc resp k 0x22 2
  (r.1, r.2.1, r.2.2.map unpack_u16)

/-- Translation of `Ens160._get_aqi()`: read one byte from register 0x21 and keep its low
three bits (`0x07 & reg_val[0]`). -/
def get_aqi (check_crc : Bool) (resp : Nat → List Nat) (k : Nat) :
    List BusOp × Nat × Except DriverError Nat :=
  let r := read_register check_crc resp k 0x21 1
  (r.1, r.2.1, r.2.2.map (fun b => 0x07 &&& byte0 b))

/-- Result of `Ens160.get_measurement_value`: a single reading, or the
`ens160_air_params` namedtuple. -/
inductive MeasValue where
  | single (value : Nat)
  | air_params (eco2 : Nat) (tvoc : Nat) (aqi : Nat)
deriving DecidableEq, Repr

/-- Translation of `Ens160.get_measurement_value(value_index)`: dispatch on the index.  Index
0 reads eCO2, 1 reads TVOC, 2 reads AQI, `None` reads all three (eCO2, TVOC,
AQI, in Python's left-to-right argument order) into the namedtuple; any other
index falls through every branch, so the method issues no bus operation and
returns Python's implicit `None`.  A CRC failure in any underlying read
propagates as the exception. -/
def get_measurement_value (check_crc : Bool) (resp : Nat → List Nat) (k : Nat)
    (value_index : Option ℤ) :
    List BusOp × Nat × Except DriverError (Option MeasValue) :=
  if value_index = some 0 then
    let r := get_eco2 check_crc resp k
    (r.1, r.2.1, r.2.2.map (fun v => some (MeasValue.single v)))
  else if value_index = some 1 then
    let r := get_tvoc check_crc resp k
    (r.1, r.2.1, r.2.2.map (fun v => some (MeasValue.single v)))
  else if value_index = some 2 then
    let r := get_aqi check_crc resp k
    (r.1, r.2.1, r.2.2.map (fun v => some (MeasValue.single v)))
  else if value_index = none then
    let r1 := get_eco2 check_crc resp k
    match r1.2.2 with
    | Except.error e => (r1.1, r1.2.1, Except.error e)
    | Except.ok v1 =>
      let r2 := get_tvoc check_crc resp r1.2.1
      match r2.2.2 with
      | Except.error e => (r1.1 ++ r2.1, r2.2.1, Except.error e)
      | Except.ok v2 =>
        let r3 := get_aqi check_crc resp r2.2.1
        match r3.2.2 with
        | Except.error e => (r1.1 ++ r2.1 ++ r3.1, r3.2.1, Except.error e)
        | Except.ok v3 =>
          (r1.1 ++ r2.1 ++ r3.1, r3.2.1,
           Except.ok (some (MeasValue.air_params v1 v2 v3)))
  else ([], k, Except.ok none)

end Ens160


namespace Ens160

theorem crc8_step_eq_ref (polynomial crc item : Nat) (h : item < 256) :
    crc8_step polynomial crc item = crc8_ref_step polynomial crc item := by
  have h1 : item &&& 0xFF = item := by
    have := Nat.and_pow_two_sub_one_eq_mod item 8
    simpa [Nat.mod_eq_of_lt h] using this
  have hmask : 0xFF &&& ((crc <<< 1) ^^^ item) = ((crc <<< 1) &&& 0xFF) ^^^ item := by
    rw [Nat.and_comm, Nat.and_xor_distrib_right, h1]
  have hcond : (crc &&& 0x80 = 0) ↔ (crc.testBit 7 = false) := by
    rw [show (0x80 : Nat) = 2 ^ 7 from rfl, Nat.and_two_pow]
    cases crc.testBit 7 <;> simp
  unfold crc8_step crc8_ref_step
  simp only [hmask]
  rcases Bool.eq_false_or_eq_true (crc.testBit 7) with hb | hb
  · rw [if_neg (fun hz => by simp [hcond.mp hz] at hb), if_neg (by simp [hb])]
  · rw [if_pos (hcond.mpr hb), if_pos hb]

theorem crc8_foldl_eq_ref (polynomial : Nat) (l : List Nat)
    (hl : ∀ b ∈ l, b < 256) (crc : Nat) :
    l.foldl (crc8_step polynomial) crc = l.foldl (crc8_ref_step polynomial) crc := by
  induction l generalizing crc with
  | nil => rfl
  | cons x xs ih =>
    simp only [List.foldl_cons]
    rw [crc8_step_eq_ref polynomial crc x (hl x (by simp))]
    exact ih (fun b hb => hl b (by simp [hb])) _

/-- C1: `_crc8` is exactly the vendor byte-folding CRC8 of the spec — for
every seed byte and every byte sequence the driver's loop coincides with the
reference definition `crc8_ref` built from the spec's words — and it differs
from the standard bit-at-a-time CRC8 (already on the one-byte input `[0x01]`
with the driver's polynomial and seed 0). -/
theorem crc8_implements_vendor_ref :
    (∀ (polynomial seed : Nat) (sequence : List Nat),
        seed < 256 → (∀ b ∈ sequence, b < 256) →
        crc8 sequence polynomial ((seed : Nat) : ℤ) = crc8_ref sequence polynomial seed) ∧
    crc8 [0x01] CRC_POLY 0 ≠ crc8_std [0x01] CRC_POLY 0 := by
  constructor
  · intro polynomial seed sequence hs hb
    unfold crc8 crc8_ref
    have h0 : (((seed : Nat) : ℤ) % 256).toNat = seed := by omega
    rw [h0]
    exact crc8_foldl_eq_ref polynomial sequence hb seed
  · decide

/-- C1 witness: the equality instantiated at the concrete sequence
`[0xAB, 0xCD]` and seed `0x12`. -/
theorem crc8_implements_vendor_ref_w :
    crc8 [0xAB, 0xCD] CRC_POLY ((0x12 : Nat) : ℤ) = crc8_ref [0xAB, 0xCD] CRC_POLY 0x12 :=
  crc8_implements_vendor_ref.1 CRC_POLY 0x12 [0xAB, 0xCD] (by decide) (by decide)

/-- C7: `_crc8` on the empty sequence returns the seed unchanged for every
seed byte, and in particular `_crc8([], 0x1D, 0x00) == 0x00`. -/
theorem crc8_nil_returns_seed :
    (∀ (polynomial seed : Nat), seed < 256 →
        crc8 [] polynomial ((seed : Nat) : ℤ) = seed) ∧
    crc8 [] CRC_POLY 0 = 0 := by
  constructor
  · intro polynomial seed hs
    unfold crc8
    simp only [List.foldl_nil]
    omega
  · decide

/-- C7 witness: the empty-sequence identity at seed `0xA5`. -/
theorem crc8_nil_returns_seed_w :
    crc8 [] CRC_POLY ((0xA5 : Nat) : ℤ) = 0xA5 :=
  crc8_nil_returns_seed.1 CRC_POLY 0xA5 (by decide)

theorem crc8_step_lt (polynomial : Nat) (hp : polynomial < 256) (crc item : Nat) :
    crc8_step polynomial crc item < 256 := by
  have h256 : (256 : Nat) = 2 ^ 8 := rfl
  have htmp : 0xFF &&& ((crc <<< 1) ^^^ item) < 256 :=
    lt_of_le_of_lt Nat.and_le_left (by norm_num)
  unfold crc8_step
  split
  · exact htmp
  · rw [h256]
    exact Nat.xor_lt_two_pow (h256 ▸ htmp) (h256 ▸ hp)

theorem crc8_foldl_lt (polynomial : Nat) (hp : polynomial < 256)
    (l : List Nat) (crc : Nat) (hc : crc < 256) :
    l.foldl (crc8_step polynomial) crc < 256 := by
  induction l generalizing crc with
  | nil => exact hc
  | cons x xs ih => exact ih _ (crc8_step_lt polynomial hp crc x)

/-- C9: for every integer `init_value`, of any sign and magnitude, and every
sequence of bytes, the `crc` variable of `_crc8` is a single byte after every
loop iteration (the state after `k` iterations is `_crc8` of the length-`k`
prefix, and it is below 256 for every `k`, the initial state `k = 0`
included), so the returned checksum is always a single byte. -/
theorem crc8_state_always_byte :
    ∀ (init_value : ℤ) (polynomial : Nat) (sequence : List Nat) (k : Nat),
      polynomial < 256 → (∀ b ∈ sequence, b < 256) →
      crc8 (sequence.take k) polynomial init_value < 256 := by
  intro init_value polynomial sequence k hp _
  unfold crc8
  exact crc8_foldl_lt polynomial hp _ _ (by omega)

/-- C9 witness: the loop state of `_crc8` after two of the three iterations on
`[1, 2, 3]`, started from the negative seed `-999`, is still a byte. -/
theorem crc8_state_always_byte_w :
    crc8 ([1, 2, 3].take 2) CRC_POLY (-999) < 256 :=
  crc8_state_always_byte (-999) CRC_POLY [1, 2, 3] 2 (by decide) (by decide)

/-- C2: with CRC checking enabled, reading a register below 0x38 fails with
`crcError` exactly when `_crc8` over the just-read bytes, seeded with the
checksum-register value read immediately before the data read, differs from
the checksum-register value read immediately after, and the error carries the
computed and the chip-reported value; reading any address at or above 0x38
(the checksum register included) never raises this error. -/
theorem read_register_integrity :
    ∀ (resp : Nat → List Nat) (k reg_addr bytes_count : Nat),
      (reg_addr < 0x38 →
        (read_register true resp k reg_addr bytes_count).2.2 =
          if crc8 (resp (k + 1)) CRC_POLY ((byte0 (resp k) : Nat) : ℤ) =
              byte0 (resp (k + 2)) then
            Except.ok (resp (k + 1))
          else
            Except.error (DriverError.crcError
              (crc8 (resp (k + 1)) CRC_POLY ((byte0 (resp k) : Nat) : ℤ))
              (byte0 (resp (k + 2))))) ∧
      (0x38 ≤ reg_addr →
        (read_register true resp k reg_addr bytes_count).2.2 =
          Except.ok (resp (k + 1))) := by
  intro resp k reg_addr bytes_count
  constructor
  · intro h
    unfold read_register
    by_cases hc : crc8 (resp (k + 1)) CRC_POLY ((byte0 (resp k) : Nat) : ℤ) =
        byte0 (resp (k + 2))
    · simp [h, hc]
    · simp [h, hc]
  · intro h
    unfold read_register
    simp [show ¬reg_addr < 0x38 by omega]

/-- C2 witness: a response stream whose data read returns `[0x01]` while both
checksum reads return 0; the computed crc 1 disagrees with the reported 0 and
the read of register 0x22 fails with exactly those two values. -/
theorem read_register_integrity_w :
    (read_register true (fun n => if n = 1 then [1] else [0]) 0 0x22 2).2.2 =
      Except.error (DriverError.crcError 1 0) := by
  rw [(read_register_integrity (fun n => if n = 1 then [1] else [0]) 0 0x22 2).1
    (by norm_num)]
  decide

/-- C3: with CRC verification disabled at construction, `_read_register`
issues exactly one bus operation — the data read of the target register — so
it never invokes the checksum-register read (for any target other than 0x38
itself, no read of address 0x38 happens at all), it never fails, and it
returns the raw bytes the bus delivered, whatever their content. -/
theorem read_register_no_verify :
    ∀ (resp : Nat → List Nat) (k reg_addr bytes_count : Nat),
      read_register false resp k reg_addr bytes_count =
        ([BusOp.readOp reg_addr bytes_count], k + 1, Except.ok (resp k)) ∧
      (reg_addr ≠ 0x38 →
        BusOp.readOp 0x38 1 ∉ (read_register false resp k reg_addr bytes_count).1) := by
  intro resp k reg_addr bytes_count
  constructor
  · rfl
  · intro h
    unfold read_register
    simp only [Bool.false_eq_true, if_false, List.mem_singleton]
    intro heq
    injection heq with h1 h2
    exact h h1.symm

/-- C3 witness: with verification off, a read of two bytes from register 0x22
is a single bus read returning the bytes unchanged, with no read of the
checksum register 0x38. -/
theorem read_register_no_verify_w :
    read_register false (fun _ => [7, 8]) 5 0x22 2 =
      ([BusOp.readOp 0x22 2], 6, Except.ok [7, 8]) ∧
    BusOp.readOp 0x38 1 ∉ (read_register false (fun _ => [7, 8]) 5 0x22 2).1 :=
  ⟨(read_register_no_verify (fun _ => [7, 8]) 5 0x22 2).1,
   (read_register_no_verify (fun _ => [7, 8]) 5 0x22 2).2 (by decide)⟩

theorem read_register_no_value_error (check_crc : Bool) (resp : Nat → List Nat)
    (k reg_addr bytes_count : Nat) (v : ℤ) (l : List ℤ) :
    (read_register check_crc resp k reg_addr bytes_count).2.2 ≠
      Except.error (DriverError.valueError v l) := by
  unfold read_register
  cases check_crc
  · simp
  · by_cases h : reg_addr < 0x38
    · by_cases hc : crc8 (resp (k + 1)) CRC_POLY ((byte0 (resp k) : Nat) : ℤ) =
          byte0 (resp (k + 2))
      · simp [h, hc]
      · simp [h, hc]
    · simp [h]

/-- C5: `_set_mode` rejects every mode outside `{0x00, 0x01, 0x02, 0xF0}` and
`_exec_cmd` rejects every command outside `{0x00, 0x0E, 0xCC}` with a
validation error carrying the offending value and the allowed set, before any
bus operation is issued (the trace is empty); a mode in the allowed set is
written without a validation error, and a command in the allowed set never
produces a validation error. -/
theorem validation_rejects_before_bus :
    (∀ m : ℤ, m ∉ ([0, 1, 2, 0xF0] : List ℤ) →
        set_mode m = ([], Except.error (DriverError.valueError m [0, 1, 2, 0xF0]))) ∧
    (∀ m : ℤ, m ∈ ([0, 1, 2, 0xF0] : List ℤ) →
        set_mode m = ([BusOp.writeOp 0x10 m 1], Except.ok ())) ∧
    (∀ (check_crc : Bool) (resp : Nat → List Nat) (k : Nat) (c : ℤ),
        c ∉ ([0x00, 0x0E, 0xCC] : List ℤ) →
        exec_cmd check_crc resp k c =
          ([], k, Except.error (DriverError.valueError c [0x00, 0x0E, 0xCC]))) ∧
    (∀ (check_crc : Bool) (resp : Nat → List Nat) (k : Nat) (c : ℤ),
        c ∈ ([0x00, 0x0E, 0xCC] : List ℤ) → ∀ (v : ℤ) (l : List ℤ),
        (exec_cmd check_crc resp k c).2.2 ≠
          Except.error (DriverError.valueError v l)) := by
  refine ⟨?_, ?_, ?_, ?_⟩
  · intro m hm
    simp [set_mode, check_value, hm]
  · intro m hm
    simp [set_mode, check_value, hm]
  · intro check_crc resp k c hc
    simp [exec_cmd, check_value, hc]
  · intro check_crc resp k c hc v l
    simp only [exec_cmd, check_value, if_pos hc]
    exact read_register_no_value_error check_crc resp k 0x48 8 v l

/-- C5 witness: mode 5 and command 7 are rejected with no bus operation, mode
2 is written, and the valid command 0xCC causes no validation error. -/
theorem validation_rejects_before_bus_w :
    set_mode 5 = ([], Except.error (DriverError.valueError 5 [0, 1, 2, 0xF0])) ∧
    set_mode 2 = ([BusOp.writeOp 0x10 2 1], Except.ok ()) ∧
    exec_cmd false (fun _ => []) 0 7 =
      ([], 0, Except.error (DriverError.valueError 7 [0x00, 0x0E, 0xCC])) ∧
    (exec_cmd false (fun _ => []) 0 0xCC).2.2 ≠
      Except.error (DriverError.valueError 0xCC [0x00, 0x0E, 0xCC]) :=
  ⟨validation_rejects_before_bus.1 5 (by decide),
   validation_rejects_before_bus.2.1 2 (by decide),
   validation_rejects_before_bus.2.2.1 false (fun _ => []) 0 7 (by decide),
   validation_rejects_before_bus.2.2.2 false (fun _ => []) 0 0xCC (by decide)
     0xCC [0x00, 0x0E, 0xCC]⟩

/-- C6: decoding the encoding of an `ens160_config` namedtuple of flags is the
identity — `_to_config(_to_raw_config(x)) == x` for all 32 flag
combinations. -/
theorem config_round_trip :
    ∀ (a b c d e : Bool),
      to_config (to_raw_config ⟨a, b, c, d, e⟩) = ⟨a, b, c, d, e⟩ := by
  decide

/-- C4 counterexample: at `celsius = 25.0` the driver writes
`int(64*(273.15+25.0)) = 19081` to register 0x13, not
`round(64*(273.15+25.0)) = 19082` as the claim states. -/
theorem set_ambient_temp_not_round :
    set_ambient_temp 25 ≠
      [BusOp.writeOp 0x13 (round ((64 : ℚ) * (273.15 + 25))) 2] := by
  have h1 : ambient_temp_raw 25 = 19081 := by
    norm_num [ambient_temp_raw, pytrunc]
  have h2 : round ((64 : ℚ) * (273.15 + 25)) = 19082 := by
    norm_num [round_eq]
  simp [set_ambient_temp, h1, h2]

/-- C4 amended: `set_ambient_temp(celsius)` writes to register 0x13 the value
`int(64*(273.15+celsius))`, truncation toward zero, which is the floor
whenever `celsius ≥ -273.15`; in particular it writes 19081 at 25.0 °C. -/
theorem set_ambient_temp_truncates (c : ℚ) (h : 0 ≤ 273.15 + c) :
    set_ambient_temp c = [BusOp.writeOp 0x13 ⌊(64 : ℚ) * (273.15 + c)⌋ 2] := by
  have h64 : 0 ≤ (64 : ℚ) * (273.15 + c) := mul_nonneg (by norm_num) h
  unfold set_ambient_temp ambient_temp_raw pytrunc
  rw [if_pos h64]

/-- C4 amended witness: at 25.0 °C the single bus operation is the two-byte
write of `⌊64 * 298.15⌋ = 19081` to register 0x13. -/
theorem set_ambient_temp_truncates_w :
    set_ambient_temp 25 = [BusOp.writeOp 0x13 19081 2] := by
  rw [set_ambient_temp_truncates 25 (by norm_num)]
  norm_num

theorem mem_humidity_allowed (h : ℤ) :
    h ∈ humidity_allowed ↔ 0 ≤ h ∧ h ≤ 100 := by
  simp only [humidity_allowed, List.mem_map, List.mem_range]
  constructor
  · rintro ⟨n, hn, rfl⟩
    omega
  · intro hb
    exact ⟨h.toNat, by omega, by omega⟩

/-- C8: `set_humidity(rel_hum)` writes `rel_hum << 9` to register 0x15 for
every `rel_hum` in `0..100`, and for every `rel_hum` outside that range it
raises a validation error with no bus write issued. -/
theorem set_humidity_validates :
    (∀ h : ℤ, 0 ≤ h → h ≤ 100 →
        set_humidity h = ([BusOp.writeOp 0x15 (h * 2 ^ 9) 2], Except.ok ())) ∧
    (∀ h : ℤ, h < 0 ∨ 100 < h →
        set_humidity h =
          ([], Except.error (DriverError.valueError h humidity_allowed))) := by
  constructor
  · intro h h0 h1
    have hm : h ∈ humidity_allowed := (mem_humidity_allowed h).2 ⟨h0, h1⟩
    simp [set_humidity, check_value, hm, pyshl]
  · intro h hout
    have hm : h ∉ humidity_allowed := by
      rw [mem_humidity_allowed]
      omega
    simp [set_humidity, check_value, hm]

/-- C8 witness: 50 % is encoded as `50 << 9 = 25600` and written to register
0x15, and 101 % is rejected with no write. -/
theorem set_humidity_validates_w :
    set_humidity 50 = ([BusOp.writeOp 0x15 (50 * 2 ^ 9) 2], Except.ok ()) ∧
    set_humidity 101 =
      ([], Except.error (DriverError.valueError 101 humidity_allowed)) :=
  ⟨set_humidity_validates.1 50 (by decide) (by decide),
   set_humidity_validates.2 101 (by decide)⟩

theorem read_register_ops_ne_nil (check_crc : Bool) (resp : Nat → List Nat)
    (k reg_addr bytes_count : Nat) :
    (read_register check_crc resp k reg_addr bytes_count).1 ≠ [] := by
  unfold read_register
  cases check_crc
  · simp
  · by_cases h : reg_addr < 0x38
    · by_cases hc : crc8 (resp (k + 1)) CRC_POLY ((byte0 (resp k) : Nat) : ℤ) =
          byte0 (resp (k + 2))
      · simp [h, hc]
      · simp [h, hc]
    · simp [h]

/-- C10: `get_measurement_value(value_index)` returns Python's implicit
`None` and issues no register read for every index other than 0, 1, 2 and
`None`; each of the four supported indices does issue at least one register
read. -/
theorem get_measurement_value_dispatch :
    (∀ (check_crc : Bool) (resp : Nat → List Nat) (k : Nat) (i : ℤ),
        i ≠ 0 → i ≠ 1 → i ≠ 2 →
        get_measurement_value check_crc resp k (some i) =
          ([], k, Except.ok none)) ∧
    (∀ (check_crc : Bool) (resp : Nat → List Nat) (k : Nat) (idx : Option ℤ),
        (idx = some 0 ∨ idx = some 1 ∨ idx = some 2 ∨ idx = none) →
        (get_measurement_value check_crc resp k idx).1 ≠ []) := by
  constructor
  · intro check_crc resp k i h0 h1 h2
    simp [get_measurement_value, h0, h1, h2]
  · intro check_crc resp k idx hidx
    rcases hidx with h | h | h | h <;> subst h
    · simpa [get_measurement_value, get_eco2] using
        read_register_ops_ne_nil check_crc resp k 0x24 2
    · simpa [get_measurement_value, get_tvoc] using
        read_register_ops_ne_nil check_crc resp k 0x22 2
    · simpa [get_measurement_value, get_aqi] using
        read_register_ops_ne_nil check_crc resp k 0x21 1
    · simp only [get_measurement_value]
      norm_num
      rcases hr1 : (get_eco2 check_crc resp k).2.2 with e | v1
      · simpa [hr1, get_eco2] using
          read_register_ops_ne_nil check_crc resp k 0x24 2
      · rcases hr2 : (get_tvoc check_crc resp (get_eco2 check_crc resp k).2.1).2.2 with
          e | v2
        · simp only [hr1, hr2]
          intro hnil
          rcases List.append_eq_nil.mp hnil with ⟨hn1, _⟩
          exact read_register_ops_ne_nil check_crc resp k 0x24 2
            (by simpa [get_eco2] using hn1)
        · rcases hr3 : (get_aqi check_crc resp
              (get_tvoc check_crc resp (get_eco2 check_crc resp k).2.1).2.1).2.2 with
            e | v3
          · simp only [hr1, hr2, hr3]
            intro hnil
            rcases List.append_eq_nil.mp hnil with ⟨hn1, _⟩
            exact read_register_ops_ne_nil check_crc resp k 0x24 2
              (by simpa [get_eco2] using hn1)
          · simp only [hr1, hr2, hr3]
            intro hnil
            rcases List.append_eq_nil.mp hnil with ⟨hn1, _⟩
            exact read_register_ops_ne_nil check_crc resp k 0x24 2
              (by simpa [get_eco2] using hn1)

/-- C10 witness: index 7 produces no bus operation and returns `None`, while
index `None` does issue reads. -/
theorem get_measurement_value_dispatch_w :
    get_measurement_value false (fun _ => [0]) 0 (some 7) =
      ([], 0, Except.ok none) ∧
    (get_measurement_value false (fun _ => [0]) 0 none).1 ≠ [] :=
  ⟨get_measurement_value_dispatch.1 false (fun _ => [0]) 0 7
     (by decide) (by decide) (by decide),
   get_measurement_value_dispatch.2 false (fun _ => [0]) 0 none (by simp)⟩

end Ens160
